import Mathlib

/-!
Verification development for the RT-Thread adapter layer of the isotp-c
library (files `src/isotp_rtt.c`, `src/isotp_rtt.h`).

The adapter is embedded shallowly:

* the three completion flags of the per-link `rt_event` object
  (`EVENT_FLAG_TX_DONE`, `EVENT_FLAG_RX_DONE`, `EVENT_FLAG_ERROR`) become a
  record of three booleans;
* the mutable fields of `struct isotp_rtt_link` that the synchronization
  claims touch (`rx_buf_size`, the receive buffer contents, `rx_actual_size`,
  `rx_truncated`, the event set) become a `LinkState` record;
* `rt_event_recv` with `RT_EVENT_FLAG_OR | RT_EVENT_FLAG_CLEAR` is modelled
  by its RT-Thread semantics: when any requested bit is set the call
  succeeds, reports the intersection of the current set with the request
  mask, and clears exactly the requested mask; otherwise it times out and
  changes nothing;
* the opaque isotp-c engine is kept abstract: the dispatch model is generic
  in the engine state and in the effect of `isotp_on_can_message`, and the
  blocking send model takes the immediate result of `isotp_send` and the
  completion signals posted during the wait as parameters;
* machine integers are `Nat` with an explicit `% 65536` where the C code
  narrows a `uint32_t` into a `uint16_t`.

C values map to Lean values as: `RT_EOK` to `.ok`, `-RT_ETIMEOUT` to
`.etimeout`, `-RT_ERROR` to `.error`, `-RT_EINVAL` to `.einval`,
`-RT_EFULL` to `.efull`, `-RT_ENOMEM` to `.enomem`.
-/

/-- The three event flags of a link, `isotp_rtt.c` lines 34-36:
`EVENT_FLAG_TX_DONE = 1 << 0`, `EVENT_FLAG_RX_DONE = 1 << 1`,
`EVENT_FLAG_ERROR = 1 << 2`. -/
structure EventSet where
  tx_done : Bool
  rx_done : Bool
  error : Bool
deriving DecidableEq, Repr

/-- Bitwise OR of two event sets; `rt_event_send` ORs new bits into the set. -/
def EventSet.union (a b : EventSet) : EventSet :=
  ⟨a.tx_done || b.tx_done, a.rx_done || b.rx_done, a.error || b.error⟩

/-- The empty event set (no flag pending). -/
def EventSet.empty : EventSet := ⟨false, false, false⟩

/-- The mutable per-link state used by the blocking send/receive paths,
from `struct isotp_rtt_link` (`isotp_rtt.c` lines 44-62): the receive
buffer capacity `rx_buf_size`, the current contents of the user supplied
receive buffer (`rx_buf_ptr` points at it), the recorded size
`rx_actual_size`, the truncation flag `rx_truncated`, and the event set. -/
structure LinkState where
  rx_buf_size : Nat
  rx_buf : List Nat
  rx_actual_size : Nat
  rx_truncated : Bool
  events : EventSet
deriving DecidableEq, Repr

/-- `_isotp_rtt_rx_done_cb` (`isotp_rtt.c` lines 209-224): on delivery of a
PDU of `size` bytes it resets `rx_truncated`, truncates the recorded size to
`rx_buf_size` when `size` exceeds it (setting `rx_truncated`), stores the
recorded size in the `uint16_t` field `rx_actual_size` (the initial
assignment `uint16_t final_size = size` narrows the `uint32_t` argument,
hence the `% 65536`), and posts `EVENT_FLAG_RX_DONE` with `rt_event_send`.
The buffer contents are not touched by the callback itself. -/
def rxDoneCb (st : LinkState) (size : Nat) : LinkState :=
  let final0 := size % 65536
  if size > st.rx_buf_size then
    { st with rx_truncated := true, rx_actual_size := st.rx_buf_size,
              events := { st.events with rx_done := true } }
  else
    { st with rx_truncated := false, rx_actual_size := final0,
              events := { st.events with rx_done := true } }

/-- Modelled from the spec: the engine (the isotp-c library, absent from
`src/`) assembles the delivered PDU into the Link receive buffer before
invoking the rx-done callback, so after a delivery of message `msg` the
buffer holds the first `rx_buf_size` bytes of `msg` (spec section 8:
the first `C` bytes equal the prefix of the original message). -/
def engineAssemble (st : LinkState) (msg : List Nat) : LinkState :=
  { st with rx_buf := msg.take st.rx_buf_size }

/-- A complete delivery of message `msg` to a link: the engine writes the
assembled prefix into the receive buffer, then the adapter callback
`_isotp_rtt_rx_done_cb` records size, truncation flag and event. -/
def rxDelivery (st : LinkState) (msg : List Nat) : LinkState :=
  rxDoneCb (engineAssemble st msg) msg.length

/-- Results of the blocking receive `isotp_rtt_receive`
(`isotp_rtt.c` lines 464-496): `RT_EOK`, `-RT_EFULL`, `-RT_ENOMEM`,
`-RT_ETIMEOUT`, `-RT_ERROR`, `-RT_EINVAL`. -/
inductive RecvRet where
  | ok | efull | enomem | etimeout | error | einval
deriving DecidableEq, Repr

/-- Output of a blocking receive call: the returned code, the value stored
through `out_size`, the bytes copied by `rt_memcpy` into the caller buffer,
and the link state after the call. -/
structure RecvOut where
  result : RecvRet
  out_size : Nat
  copied : List Nat
  state : LinkState
deriving DecidableEq, Repr

/-- `isotp_rtt_receive` (`isotp_rtt.c` lines 464-496) on a valid link.
The blocking wait `rt_event_recv(event, RX_DONE | ERROR, OR | CLEAR,
timeout, &recved)` is modelled on the event set at the time the wait is
decided: a completion signalled during the wait is modelled by applying the
callback to `st` before this call.  When a requested bit is set the wait
succeeds, reports the set bits, and clears the requested mask (RT-Thread
semantics of `RT_EVENT_FLAG_CLEAR`); otherwise it returns `-RT_ETIMEOUT`.
On `EVENT_FLAG_RX_DONE`: `copy_size = rx_actual_size`; if
`copy_size > buf_size` the call stores 0 in `out_size`, copies nothing and
returns `-RT_ENOMEM`; otherwise it copies `copy_size` bytes from the link
receive buffer, stores `copy_size` and returns `-RT_EFULL` when
`rx_truncated` is set, else `RT_EOK`. -/
def isotp_rtt_receive (st : LinkState) (buf_size : Nat) : RecvOut :=
  if st.events.rx_done || st.events.error then
    let recved_rx := st.events.rx_done
    let st1 : LinkState :=
      { st with events := { st.events with rx_done := false, error := false } }
    if recved_rx then
      let copy_size := st.rx_actual_size
      if copy_size > buf_size then
        ⟨RecvRet.enomem, 0, [], st1⟩
      else
        ⟨if st.rx_truncated then RecvRet.efull else RecvRet.ok,
         copy_size, st.rx_buf.take copy_size, st1⟩
    else
      ⟨RecvRet.error, 0, [], st1⟩
  else
    ⟨RecvRet.etimeout, 0, [], st⟩

/-- Results of the blocking send `isotp_rtt_send`
(`isotp_rtt.c` lines 412-448). -/
inductive SendRet where
  | ok | error | etimeout | einval
deriving DecidableEq, Repr

/-- Operations on the link send mutex performed by a call. -/
inductive LockOp where
  | take | release
deriving DecidableEq, Repr

/-- Output of a blocking send call: the returned code, the link state after
the call, and the sequence of operations on the link send mutex. -/
structure SendOut where
  result : SendRet
  state : LinkState
  locks : List LockOp
deriving DecidableEq, Repr

/-- The stale-event pre-clear of `isotp_rtt_send` (`isotp_rtt.c` line 423):
`rt_event_recv(event, TX_DONE | ERROR | RX_DONE, OR | CLEAR, 0, &recved)`.
If any of the three bits is set the call clears the whole requested mask,
which is all three bits; if none is set nothing is cleared (and the set
already had no bit). -/
def preClearEvents (e : EventSet) : EventSet :=
  if e.tx_done || e.error || e.rx_done then EventSet.empty else e

/-- `isotp_rtt_send` (`isotp_rtt.c` lines 412-448) on a valid link.
`engineOk` is the immediate result of the opaque `isotp_send` call
(`ISOTP_RET_OK` or not); `arrivals` is the set of event bits posted by the
completion callbacks during the wait on `TX_DONE | ERROR`.  The call takes
the send mutex (line 420), pre-clears stale events (line 423), invokes the
engine, and on acceptance waits with `rt_event_recv(event,
TX_DONE | ERROR, OR | CLEAR, timeout, &recved)`: success clears exactly the
requested mask and reports the set bits, with `ERROR` taking precedence in
the result; no matching bit yields `-RT_ETIMEOUT`.  The mutex is released
at line 446 before the single return. -/
def isotp_rtt_send (st : LinkState) (engineOk : Bool) (arrivals : EventSet) :
    SendOut :=
  let e0 := preClearEvents st.events
  if !engineOk then
    ⟨SendRet.error, { st with events := e0 }, [LockOp.take, LockOp.release]⟩
  else
    let s1 := EventSet.union e0 arrivals
    if s1.tx_done || s1.error then
      ⟨if s1.error then SendRet.error else SendRet.ok,
       { st with events := { s1 with tx_done := false, error := false } },
       [LockOp.take, LockOp.release]⟩
    else
      ⟨SendRet.etimeout, { st with events := s1 },
       [LockOp.take, LockOp.release]⟩

/-- Null-handle guard of `isotp_rtt_send` (`isotp_rtt.c` lines 414-415):
a null link returns `-RT_EINVAL` without touching any mutex. -/
def isotp_rtt_send_api (link : Option LinkState) (engineOk : Bool)
    (arrivals : EventSet) : SendOut :=
  match link with
  | none => ⟨SendRet.einval, ⟨0, [], 0, false, EventSet.empty⟩, []⟩
  | some st => isotp_rtt_send st engineOk arrivals

/-! ## Link registry and dispatch

`isotp_rtt_on_can_msg_received` (`isotp_rtt.c` lines 298-319) traverses the
global link list `g_link_list_head` with `rt_list_for_each_entry_safe` and,
for every entry whose `recv_arbitration_id` equals `msg->id`, calls
`isotp_on_can_message(&link->link, msg->data, msg->len)` without breaking
out of the loop.  `isotp_rtt_create` (line 379) registers a new link with
`rt_list_insert_after(&g_link_list_head, &node)`, which places the new node
immediately after the head, i.e. in front of all previously registered
nodes; the traversal macro walks the list from the head forward.  The
registry is therefore a list where registration is `cons` and traversal is
list order.  The engine call is kept generic: `E` is the engine state of a
link and `onCan` the effect of the opaque `isotp_on_can_message`. -/

/-- A CAN frame as seen by the dispatcher: `rt_can_msg` identifier and
payload bytes (`msg->id`, `msg->data` with `msg->len`). -/
structure Frame where
  id : Nat
  payload : List Nat
deriving DecidableEq, Repr

/-- A registered link as the dispatcher sees it: its creation tag (used to
observe delivery order), its `recv_arbitration_id`, and its engine state. -/
structure RegLink (E : Type) where
  tag : Nat
  recvId : Nat
  engine : E
deriving DecidableEq, Repr

/-- Registration (`isotp_rtt_create`, line 379):
`rt_list_insert_after(&g_link_list_head, &node)` puts the new link at the
front of the traversal order. -/
def registerLink {E : Type} (reg : List (RegLink E)) (l : RegLink E) :
    List (RegLink E) :=
  l :: reg

/-- The registry obtained by registering the given links in order
(first element of `ls` is created first). -/
def registerAll {E : Type} (ls : List (RegLink E)) : List (RegLink E) :=
  ls.foldl registerLink []

/-- `isotp_rtt_on_can_msg_received` (`isotp_rtt.c` lines 298-319): walk the
registry in traversal order, forward the frame to every link whose receive
identifier equals the frame identifier (the loop has no `break`), and
return the updated registry together with the tags of the links that
received the frame, in call order.  The function returns no error value
(its C type is `void`): a frame matching no link leaves every link
untouched. -/
def isotp_rtt_on_can_msg_received {E : Type} (onCan : E → Frame → E) :
    List (RegLink E) → Frame → List (RegLink E) × List Nat
  | [], _ => ([], [])
  | l :: rest, msg =>
    let tail := isotp_rtt_on_can_msg_received onCan rest msg
    if l.recvId = msg.id then
      ({ l with engine := onCan l.engine msg } :: tail.1, l.tag :: tail.2)
    else
      (l :: tail.1, tail.2)

/-! ## Link creation

`isotp_rtt_create` (`isotp_rtt.c` lines 334-383).  The call fails (returns
`RT_NULL`) only when `can_dev` is null (line 344) or `rt_malloc` fails
(line 351).  The results of `rt_event_init` (line 370) and
`rt_mutex_create` (line 371) are not checked: `rt_mutex_create` returns
`RT_NULL` when the kernel heap is exhausted, and the code stores that value
in `send_mutex`, registers the link and returns the handle anyway.
`rt_free` is never called on any path after the allocation succeeds. -/

/-- Environment of one `isotp_rtt_create` call: whether `rt_malloc`
succeeds, the result of `rt_event_init`, and whether `rt_mutex_create`
returns a non-null mutex. -/
structure CreateEnv where
  malloc_ok : Bool
  event_init_ok : Bool
  mutex_create_ok : Bool
deriving DecidableEq, Repr

/-- The observable fields of a link handle returned by `isotp_rtt_create`:
whether the embedded event object was initialized, the stored mutex
(`none` models a null `send_mutex`), and whether the link was inserted in
the global registry. -/
structure CreatedLink where
  has_event : Bool
  send_mutex : Option Unit
  registered : Bool
deriving DecidableEq, Repr

/-- Outcome of `isotp_rtt_create`: the returned handle (`none` is
`RT_NULL`) and whether the allocated block was released with `rt_free`. -/
structure CreateOut where
  handle : Option CreatedLink
  freed : Bool
deriving DecidableEq, Repr

/-- `isotp_rtt_create` (`isotp_rtt.c` lines 334-383): fails only on a null
device or a failed `rt_malloc`; the `rt_event_init` and `rt_mutex_create`
results are ignored, the node is inserted into the registry
unconditionally (line 379) and the handle is returned. -/
def isotp_rtt_create (can_dev_valid : Bool) (env : CreateEnv) : CreateOut :=
  if !can_dev_valid then
    ⟨none, false⟩
  else if !env.malloc_ok then
    ⟨none, false⟩
  else
    ⟨some { has_event := true,
            send_mutex := if env.mutex_create_ok then some () else none,
            registered := true },
     false⟩

/-! ## Lock discipline of the three engine-mutating paths

The engine instance of a link is mutated by three code paths:

* `isotp_rtt_send` calls `isotp_send` (line 425) between
  `rt_mutex_take(link->send_mutex, ...)` (line 420) and
  `rt_mutex_release(link->send_mutex)` (line 446);
* `isotp_rtt_on_can_msg_received` calls `isotp_on_can_message` (line 315)
  taking no lock;
* `_poll_thread_entry` calls `isotp_poll` (line 248) taking no lock.

Each path is abstracted to its sequence of mutex operations and engine
calls on one fixed link (the engine call is split into an entry and an
exit so that two paths being inside the engine at the same time is a
reachable state).  Two paths run by two threads interleave; an `acquire`
step is enabled only when the mutex is free, a `free` step only for the
owner. -/

/-- One atomic step of a code path: take or release the link send mutex,
or enter or leave the engine call. -/
inductive PAct where
  | acquire | free | engBegin | engEnd
deriving DecidableEq, Repr

/-- The blocking send path (`isotp_rtt_send`, lines 420, 425, 446). -/
def sendPath : List PAct := [PAct.acquire, PAct.engBegin, PAct.engEnd, PAct.free]

/-- The dispatch path (`isotp_rtt_on_can_msg_received`, line 315): the
engine call is made with no lock held. -/
def dispatchPath : List PAct := [PAct.engBegin, PAct.engEnd]

/-- The poll path (`_poll_thread_entry`, line 248): the engine call is made
with no lock held. -/
def pollPath : List PAct := [PAct.engBegin, PAct.engEnd]

/-- A joint state of two threads running two paths on the same link: the
program counter of each thread and the mutex owner (`none` when free,
`some false` for thread one, `some true` for thread two). -/
structure TwoState where
  pc1 : Nat
  pc2 : Nat
  owner : Option Bool
deriving DecidableEq, Repr

/-- Effect of one thread (`me`) executing action `a` when the mutex owner
is `owner`: `none` when the action is blocked. -/
def actStep (a : PAct) (owner : Option Bool) (me : Bool) :
    Option (Option Bool) :=
  match a with
  | PAct.acquire => if owner = none then some (some me) else none
  | PAct.free => if owner = some me then some none else none
  | PAct.engBegin => some owner
  | PAct.engEnd => some owner

/-- Successor states of a joint state: either thread executes its next
enabled action. -/
def nextStates (p1 p2 : List PAct) (s : TwoState) : List TwoState :=
  let t1 :=
    match p1.get? s.pc1 with
    | none => []
    | some a =>
      match actStep a s.owner false with
      | none => []
      | some ow => [⟨s.pc1 + 1, s.pc2, ow⟩]
  let t2 :=
    match p2.get? s.pc2 with
    | none => []
    | some a =>
      match actStep a s.owner true with
      | none => []
      | some ow => [⟨s.pc1, s.pc2 + 1, ow⟩]
  t1 ++ t2

/-- Bounded breadth-first exploration of the joint state space. -/
def reachFrom (p1 p2 : List PAct) : Nat → List TwoState → List TwoState
  | 0, acc => acc
  | fuel + 1, acc =>
    let fresh := (acc.flatMap (nextStates p1 p2)).filter (fun s => !acc.contains s)
    if fresh = [] then acc else reachFrom p1 p2 fuel (acc ++ fresh)

/-- A thread is inside the engine call when it has executed `engBegin` but
not yet the matching `engEnd`. -/
def inEngine (p : List PAct) (pc : Nat) : Bool :=
  (p.take pc).count PAct.engBegin > (p.take pc).count PAct.engEnd

/-- Whether two paths, run by two threads on the same link, can both be
inside the engine call at the same time. -/
def overlapPossible (p1 p2 : List PAct) : Bool :=
  (reachFrom p1 p2 32 [⟨0, 0, none⟩]).any
    (fun s => inEngine p1 s.pc1 && inEngine p2 s.pc2)

/-- Whether every engine call of a path is made while the path holds the
link send mutex. -/
def engineUnderLock : List PAct → Bool → Bool
  | [], _ => true
  | a :: rest, held =>
    match a with
    | PAct.acquire => engineUnderLock rest true
    | PAct.free => engineUnderLock rest false
    | PAct.engBegin => held && engineUnderLock rest held
    | PAct.engEnd => engineUnderLock rest held

/-! ## Helper lemmas -/

/-- The stale-event pre-clear always leaves the event set empty: when a bit
is set the whole three-bit mask is cleared, and when no bit is set the set
already equals the empty set. -/
theorem preClearEvents_eq_empty (e : EventSet) :
    preClearEvents e = EventSet.empty := by
  rcases e with ⟨t, r, er⟩
  cases t <;> cases r <;> cases er <;> rfl

/-- First component of the dispatch: every registered link whose receive
identifier matches the frame identifier has the frame applied to its
engine; every other link is untouched. -/
theorem dispatch_fst_eq {E : Type} (onCan : E → Frame → E)
    (reg : List (RegLink E)) (msg : Frame) :
    (isotp_rtt_on_can_msg_received onCan reg msg).1
      = reg.map (fun l =>
          if l.recvId = msg.id then { l with engine := onCan l.engine msg }
          else l) := by
  induction reg with
  | nil => rfl
  | cons l rest ih =>
    by_cases h : l.recvId = msg.id <;>
      simp [isotp_rtt_on_can_msg_received, h, ih]

/-- Second component of the dispatch: the tags of the links that received
the frame are exactly the matching links in traversal order. -/
theorem dispatch_snd_eq {E : Type} (onCan : E → Frame → E)
    (reg : List (RegLink E)) (msg : Frame) :
    (isotp_rtt_on_can_msg_received onCan reg msg).2
      = (reg.filter (fun l => decide (l.recvId = msg.id))).map RegLink.tag := by
  induction reg with
  | nil => rfl
  | cons l rest ih =>
    by_cases h : l.recvId = msg.id <;>
      simp [isotp_rtt_on_can_msg_received, h, ih]

/-- Registering links one by one builds the reverse of the creation order:
`rt_list_insert_after` on the list head is `cons`. -/
theorem registerAll_eq_reverse {E : Type} (ls : List (RegLink E)) :
    registerAll ls = ls.reverse := by
  have key : ∀ (xs : List (RegLink E)) (acc : List (RegLink E)),
      xs.foldl registerLink acc = xs.reverse ++ acc := by
    intro xs
    induction xs with
    | nil => intro acc; rfl
    | cons x rest ih =>
      intro acc
      simp [List.foldl_cons, registerLink, ih]
  simpa using key ls []

/-! ## Claim theorems -/

/-- C1: every inbound frame passed to `isotp_rtt_on_can_msg_received` is
forwarded to every registered link whose receive identifier equals the
frame identifier (fan-out, not first-match: the resulting registry is the
pointwise update of all matching links), the delivered set is exactly the
matching links, and a frame whose identifier matches no registered link is
silently dropped: the registry is unchanged, nothing is delivered, and no
error is produced (the dispatch has no error result). -/
theorem dispatch_fanout {E : Type} (onCan : E → Frame → E)
    (reg : List (RegLink E)) (msg : Frame) :
    (isotp_rtt_on_can_msg_received onCan reg msg).1
        = reg.map (fun l =>
            if l.recvId = msg.id then { l with engine := onCan l.engine msg }
            else l)
      ∧ (isotp_rtt_on_can_msg_received onCan reg msg).2
          = (reg.filter (fun l => decide (l.recvId = msg.id))).map RegLink.tag
      ∧ ((∀ l ∈ reg, l.recvId ≠ msg.id) →
          isotp_rtt_on_can_msg_received onCan reg msg = (reg, [])) := by
  refine ⟨dispatch_fst_eq onCan reg msg, dispatch_snd_eq onCan reg msg,
    fun h => ?_⟩
  have hfst : (isotp_rtt_on_can_msg_received onCan reg msg).1 = reg := by
    rw [dispatch_fst_eq]
    have : reg.map (fun l =>
        if l.recvId = msg.id then { l with engine := onCan l.engine msg }
        else l) = reg.map id := by
      apply List.map_congr_left
      intro l hl
      simp [h l hl]
    simpa using this
  have hsnd : (isotp_rtt_on_can_msg_received onCan reg msg).2 = [] := by
    rw [dispatch_snd_eq]
    have : reg.filter (fun l => decide (l.recvId = msg.id)) = [] := by
      apply List.filter_eq_nil_iff.2
      intro l hl
      simp [h l hl]
    simp [this]
  exact Prod.ext hfst hsnd

/-- Witness for C1: a concrete registry with one link listening on
identifier 5 and a frame with identifier 7: the frame is dropped, the
registry is unchanged and nothing is delivered. -/
theorem dispatch_fanout_witness :
    isotp_rtt_on_can_msg_received (fun (e : Nat) (_ : Frame) => e + 1)
        [⟨0, 5, 0⟩] ⟨7, [1, 2]⟩ = ([⟨0, 5, 0⟩], []) :=
  (dispatch_fanout (fun (e : Nat) (_ : Frame) => e + 1)
      [⟨0, 5, 0⟩] ⟨7, [1, 2]⟩).2.2 (by decide)

/-- C2: when a delivered PDU is larger than the link receive buffer
capacity, the rx-completion path records the size truncated to the
capacity and sets the truncation flag without signalling an error (the
error flag is untouched and only `EVENT_FLAG_RX_DONE` is posted), and a
subsequent receive call with a caller buffer of at least the capacity
returns `-RT_EFULL` (Truncated) with `out_size` equal to the capacity and
the first capacity bytes of the original message copied into the caller
buffer. -/
theorem rx_truncation_correct (st : LinkState) (msg : List Nat)
    (buf_size : Nat) (hover : msg.length > st.rx_buf_size)
    (hbuf : st.rx_buf_size ≤ buf_size) :
    (rxDelivery st msg).rx_actual_size = st.rx_buf_size
      ∧ (rxDelivery st msg).rx_truncated = true
      ∧ (rxDelivery st msg).events.rx_done = true
      ∧ (rxDelivery st msg).events.error = st.events.error
      ∧ (isotp_rtt_receive (rxDelivery st msg) buf_size).result = RecvRet.efull
      ∧ (isotp_rtt_receive (rxDelivery st msg) buf_size).out_size
          = st.rx_buf_size
      ∧ (isotp_rtt_receive (rxDelivery st msg) buf_size).copied
          = msg.take st.rx_buf_size := by
  have hdeliv : rxDelivery st msg =
      { st with rx_buf := msg.take st.rx_buf_size, rx_truncated := true,
                rx_actual_size := st.rx_buf_size,
                events := { st.events with rx_done := true } } := by
    simp [rxDelivery, rxDoneCb, engineAssemble, hover]
  have hnot : ¬ st.rx_buf_size > buf_size := not_lt.2 hbuf
  refine ⟨by simp [hdeliv], by simp [hdeliv], by simp [hdeliv],
    by simp [hdeliv], ?_, ?_, ?_⟩
  · simp [hdeliv, isotp_rtt_receive, hnot]
  · simp [hdeliv, isotp_rtt_receive, hnot]
  · simp [hdeliv, isotp_rtt_receive, hnot, List.take_take]

/-- Witness for C2: a link with capacity 2 receives the 3-byte message
`[10, 20, 30]`; a receive into a 5-byte caller buffer returns `-RT_EFULL`
with size 2 and the prefix `[10, 20]`. -/
theorem rx_truncation_correct_witness :
    (isotp_rtt_receive
        (rxDelivery ⟨2, [], 0, false, EventSet.empty⟩ [10, 20, 30]) 5).result
        = RecvRet.efull
      ∧ (isotp_rtt_receive
          (rxDelivery ⟨2, [], 0, false, EventSet.empty⟩ [10, 20, 30]) 5).out_size
          = 2
      ∧ (isotp_rtt_receive
          (rxDelivery ⟨2, [], 0, false, EventSet.empty⟩ [10, 20, 30]) 5).copied
          = [10, 20] := by
  have h := rx_truncation_correct ⟨2, [], 0, false, EventSet.empty⟩
    [10, 20, 30] 5 (by decide) (by decide)
  exact ⟨h.2.2.2.2.1, h.2.2.2.2.2.1, h.2.2.2.2.2.2⟩

/-- C3 counterexample: a receive call that observes receive-completion with
`rx_actual_size = 4` and a caller buffer of size 2 copies zero bytes into
the caller buffer, not `min(recorded_size, buffer_size) = 2` bytes: in the
`-RT_ENOMEM` branch (`isotp_rtt.c` lines 480-485) the code stores 0 in
`out_size` and returns without calling `rt_memcpy`.  The claim that
`min(recorded_size, buffer_size)` bytes are copied in every completed
receive is therefore false at this input (the OutOfMemory return itself
does hold). -/
theorem receive_min_copy_counterexample :
    (isotp_rtt_receive ⟨4, [1, 2, 3, 4], 4, false, ⟨false, true, false⟩⟩
        2).result = RecvRet.enomem
      ∧ (isotp_rtt_receive ⟨4, [1, 2, 3, 4], 4, false, ⟨false, true, false⟩⟩
          2).copied = []
      ∧ (isotp_rtt_receive ⟨4, [1, 2, 3, 4], 4, false, ⟨false, true, false⟩⟩
          2).out_size = 0
      ∧ min 4 2 = 2
      ∧ (2 : Nat) ≠ 0 := by decide

/-- C3 amended: in every receive call that observes receive-completion,
if `rx_actual_size ≤ buf_size` the call copies `rx_actual_size` bytes into
the caller buffer, stores that size and returns `-RT_EFULL` when the
recorded PDU was truncated, else `RT_EOK`; if `rx_actual_size > buf_size`
the call copies nothing, stores 0 and returns `-RT_ENOMEM`, a result
distinct from `-RT_EFULL`, the result of the internal truncation against
the link receive buffer. -/
theorem receive_copy_amended (st : LinkState) (buf_size : Nat)
    (hrx : st.events.rx_done = true) :
    (st.rx_actual_size ≤ buf_size →
        (isotp_rtt_receive st buf_size).result
            = (if st.rx_truncated then RecvRet.efull else RecvRet.ok)
          ∧ (isotp_rtt_receive st buf_size).out_size = st.rx_actual_size
          ∧ (isotp_rtt_receive st buf_size).copied
              = st.rx_buf.take st.rx_actual_size)
      ∧ (st.rx_actual_size > buf_size →
          (isotp_rtt_receive st buf_size).result = RecvRet.enomem
            ∧ (isotp_rtt_receive st buf_size).out_size = 0
            ∧ (isotp_rtt_receive st buf_size).copied = [])
      ∧ RecvRet.enomem ≠ RecvRet.efull := by
  refine ⟨fun hle => ?_, fun hgt => ?_, by decide⟩
  · have hnot : ¬ st.rx_actual_size > buf_size := not_lt.2 hle
    exact ⟨by simp [isotp_rtt_receive, hrx, hnot],
      by simp [isotp_rtt_receive, hrx, hnot],
      by simp [isotp_rtt_receive, hrx, hnot]⟩
  · exact ⟨by simp [isotp_rtt_receive, hrx, hgt],
      by simp [isotp_rtt_receive, hrx, hgt],
      by simp [isotp_rtt_receive, hrx, hgt]⟩

/-- Witness for the amended C3: a link with a recorded 3-byte PDU and an
8-byte caller buffer: the receive returns `RT_EOK`, stores 3 and copies
the three recorded bytes. -/
theorem receive_copy_amended_witness :
    (isotp_rtt_receive ⟨4, [7, 8, 9], 3, false, ⟨false, true, false⟩⟩
        8).result = RecvRet.ok
      ∧ (isotp_rtt_receive ⟨4, [7, 8, 9], 3, false, ⟨false, true, false⟩⟩
          8).out_size = 3
      ∧ (isotp_rtt_receive ⟨4, [7, 8, 9], 3, false, ⟨false, true, false⟩⟩
          8).copied = [7, 8, 9] := by
  have h := (receive_copy_amended
    ⟨4, [7, 8, 9], 3, false, ⟨false, true, false⟩⟩ 8 rfl).1 (by decide)
  exact ⟨h.1, h.2.1, h.2.2⟩

/-- C4 counterexample: the blocking receive does not clear stale completion
bits before its wait.  On a link whose event set still holds
`EVENT_FLAG_RX_DONE` from an operation completed before the call began, a
fresh `isotp_rtt_receive` observes that bit and returns `RT_EOK`
immediately, while on the same link with the stale bit cleared it returns
`-RT_ETIMEOUT`: the outcome of a fresh receive call does depend on a
completion bit signalled for an earlier operation, so the pre-clear claim
is false for the receive path (only `isotp_rtt_send`, line 423,
pre-clears). -/
theorem preclear_claim_counterexample :
    (isotp_rtt_receive ⟨4, [1, 2, 3], 3, false, ⟨false, true, false⟩⟩
        8).result = RecvRet.ok
      ∧ (isotp_rtt_receive ⟨4, [1, 2, 3], 3, false, EventSet.empty⟩
          8).result = RecvRet.etimeout := by decide

/-- C4 amended: only the blocking send pre-clears stale completion bits:
the outcome of `isotp_rtt_send` (result, final state and lock trace) is
completely independent of the event set the call starts from, because line
423 clears `TX_DONE | ERROR | RX_DONE` before initiating the transfer; the
blocking receive performs no pre-clear, and its wait observes and consumes
whatever receive-done bit is set when the call starts, including one
signalled before the call began. -/
theorem preclear_amended (st : LinkState) (e1 e2 : EventSet)
    (engineOk : Bool) (arrivals : EventSet) (st2 : LinkState)
    (buf_size : Nat) (hrx : st2.events.rx_done = true) :
    isotp_rtt_send { st with events := e1 } engineOk arrivals
        = isotp_rtt_send { st with events := e2 } engineOk arrivals
      ∧ (isotp_rtt_receive st2 buf_size).result ≠ RecvRet.etimeout
      ∧ ((isotp_rtt_receive st2 buf_size).state.events.rx_done = false) := by
  refine ⟨?_, ?_, ?_⟩
  · simp [isotp_rtt_send, preClearEvents_eq_empty]
  · simp only [isotp_rtt_receive, hrx, Bool.true_or, if_true]
    split
    · simp
    · split <;> simp
  · simp only [isotp_rtt_receive, hrx, Bool.true_or, if_true]
    split <;> rfl

/-- Witness for the amended C4: two concrete initial event sets give the
same send outcome, and a receive on a link with a pre-set receive-done bit
does not time out and consumes the bit. -/
theorem preclear_amended_witness :
    isotp_rtt_send
        { (⟨4, [], 0, false, EventSet.empty⟩ : LinkState) with
            events := (⟨true, true, true⟩ : EventSet) } true EventSet.empty
        = isotp_rtt_send
            { (⟨4, [], 0, false, EventSet.empty⟩ : LinkState) with
                events := EventSet.empty } true EventSet.empty
      ∧ (isotp_rtt_receive ⟨4, [1], 1, false, ⟨false, true, false⟩⟩ 8).result
          ≠ RecvRet.etimeout
      ∧ ((isotp_rtt_receive ⟨4, [1], 1, false,
          ⟨false, true, false⟩⟩ 8).state.events.rx_done = false) :=
  ⟨(preclear_amended ⟨4, [], 0, false, EventSet.empty⟩ ⟨true, true, true⟩
      EventSet.empty true EventSet.empty
      ⟨4, [1], 1, false, ⟨false, true, false⟩⟩ 8 rfl).1,
   (preclear_amended ⟨4, [], 0, false, EventSet.empty⟩ ⟨true, true, true⟩
      EventSet.empty true EventSet.empty
      ⟨4, [1], 1, false, ⟨false, true, false⟩⟩ 8 rfl).2.1,
   (preclear_amended ⟨4, [], 0, false, EventSet.empty⟩ ⟨true, true, true⟩
      EventSet.empty true EventSet.empty
      ⟨4, [1], 1, false, ⟨false, true, false⟩⟩ 8 rfl).2.2⟩

/-- C5 counterexample: two links listening on identifier 9, link with tag 0
created first and link with tag 1 created second.  `isotp_rtt_create`
inserts each new link directly after the list head
(`rt_list_insert_after(&g_link_list_head, &node)`, line 379), so the
dispatch loop visits the newest link first: the frame is delivered in the
order `[1, 0]`, not in registration order `[0, 1]`. -/
theorem dispatch_order_counterexample :
    (isotp_rtt_on_can_msg_received (fun (e : Nat) (_ : Frame) => e + 1)
        (registerAll [⟨0, 9, 0⟩, ⟨1, 9, 0⟩]) ⟨9, [5]⟩).2 = [1, 0]
      ∧ ([1, 0] : List Nat) ≠ [0, 1] := by decide

/-- C5 amended: for every inbound frame matched by several registered
links, the dispatch delivers the frame to the matching links in reverse
registration order (the most recently created matching link first),
because registration inserts each new link at the front of the traversal
list. -/
theorem dispatch_order_amended {E : Type} (onCan : E → Frame → E)
    (ls : List (RegLink E)) (msg : Frame) :
    (isotp_rtt_on_can_msg_received onCan (registerAll ls) msg).2
      = ((ls.filter (fun l => decide (l.recvId = msg.id))).map
          RegLink.tag).reverse := by
  rw [registerAll_eq_reverse, dispatch_snd_eq, List.filter_reverse,
    List.map_reverse]

/-- C6: every blocking send call on a valid link performs exactly one take
of the link send mutex followed by exactly one release, on every exit
path: immediate engine rejection (`isotp_send` not returning
`ISOTP_RET_OK`), wait timeout, error signal, and successful completion are
all covered by quantifying over the engine result and the signals posted
during the wait. -/
theorem send_mutex_balanced (st : LinkState) (engineOk : Bool)
    (arrivals : EventSet) :
    (isotp_rtt_send_api (some st) engineOk arrivals).locks
      = [LockOp.take, LockOp.release] := by
  simp only [isotp_rtt_send_api, isotp_rtt_send]
  split
  · rfl
  · split <;> rfl

/-- C7: with a valid CAN device and a successful `rt_malloc`, an
`isotp_rtt_create` call in which `rt_mutex_create` fails (returns
`RT_NULL`, e.g. on kernel heap exhaustion) does not fail: it returns a
non-null handle whose stored send mutex is null, registers the link, and
never releases the allocation.  This contradicts the claim (and the header
documentation, which promises `RT_NULL` on failure) that a failed
mutex/event acquisition fails the create call and releases the partial
allocation: the code ignores the results of `rt_event_init` (line 370) and
`rt_mutex_create` (line 371). -/
theorem create_ignores_mutex_failure :
    isotp_rtt_create true ⟨true, true, false⟩
      = ⟨some ⟨true, none, true⟩, false⟩ := by decide

/-- C8 counterexample: in the two-thread interleaving of the mutex and
engine steps each path performs on one fixed link, a state in which both
threads are inside an engine call is reachable for dispatch running
against poll, for send running against poll, and for send running against
dispatch: the dispatch path (line 315) and the poll path (line 248) take
no per-link lock, so the mutual-exclusion claim for the three
engine-mutating activities fails. -/
theorem engine_exclusion_counterexample :
    overlapPossible dispatchPath pollPath = true
      ∧ overlapPossible sendPath pollPath = true
      ∧ overlapPossible sendPath dispatchPath = true := by decide

/-- C8 amended: the only mutual exclusion the link mutex provides among
the three engine-mutating activities is between concurrent blocking sends:
two send paths can never both be inside the engine (the send path performs
its engine call with the mutex held), while the dispatch and poll paths
perform their engine calls under no lock, so dispatch/poll, send/poll and
send/dispatch can each overlap inside the engine on the same link. -/
theorem engine_exclusion_amended :
    overlapPossible sendPath sendPath = false
      ∧ engineUnderLock sendPath false = true
      ∧ engineUnderLock dispatchPath false = false
      ∧ engineUnderLock pollPath false = false
      ∧ overlapPossible dispatchPath pollPath = true
      ∧ overlapPossible sendPath pollPath = true
      ∧ overlapPossible sendPath dispatchPath = true := by decide

/-- C9: after every invocation of the rx-completion callback, the recorded
size is at most the receive buffer capacity, the truncation flag is set if
and only if the delivered size exceeded the capacity (independently of the
previous value of the flag, which the callback overwrites on every
delivery), the capacity itself is unchanged, and the receive-done flag is
posted.  The hypothesis reflects that `rx_buf_size` is a `uint16_t`. -/
theorem rx_done_invariant (st : LinkState) (size : Nat)
    (hcap : st.rx_buf_size < 65536) :
    (rxDoneCb st size).rx_actual_size ≤ st.rx_buf_size
      ∧ ((rxDoneCb st size).rx_truncated = true ↔ size > st.rx_buf_size)
      ∧ (rxDoneCb st size).rx_buf_size = st.rx_buf_size
      ∧ (rxDoneCb st size).events.rx_done = true := by
  by_cases h : size > st.rx_buf_size
  · refine ⟨?_, ?_, ?_, ?_⟩ <;> simp [rxDoneCb, h]
  · have hle : size ≤ st.rx_buf_size := not_lt.1 h
    have hmod : size % 65536 = size :=
      Nat.mod_eq_of_lt (lt_of_le_of_lt hle hcap)
    refine ⟨?_, ?_, ?_, ?_⟩ <;> simp [rxDoneCb, h, hmod, hle]

/-- Witness for C9: a link of capacity 4 with the truncation flag still set
from an earlier delivery receives a 3-byte PDU: the recorded size is 3,
within capacity, and the flag is reset. -/
theorem rx_done_invariant_witness :
    (rxDoneCb ⟨4, [], 9, true, EventSet.empty⟩ 3).rx_actual_size ≤ 4
      ∧ ((rxDoneCb ⟨4, [], 9, true, EventSet.empty⟩ 3).rx_truncated = true
          ↔ 3 > 4)
      ∧ (rxDoneCb ⟨4, [], 9, true, EventSet.empty⟩ 3).rx_buf_size = 4
      ∧ (rxDoneCb ⟨4, [], 9, true, EventSet.empty⟩ 3).events.rx_done
          = true :=
  rx_done_invariant ⟨4, [], 9, true, EventSet.empty⟩ 3 (by decide)

/-- C10: every blocking send pre-clears the receive-done flag together
with transmit-done and error (line 423), so when no new receive completion
is signalled during the send, the state after the send has no receive-done
bit, whatever the event set held before the call, and a subsequent receive
call on that state returns `-RT_ETIMEOUT` instead of observing the
discarded completion. -/
theorem send_discards_pending_rx (st : LinkState) (engineOk : Bool)
    (arrivals : EventSet) (buf_size : Nat)
    (hnorx : arrivals.rx_done = false) :
    (isotp_rtt_send st engineOk arrivals).state.events.rx_done = false
      ∧ (isotp_rtt_receive (isotp_rtt_send st engineOk arrivals).state
          buf_size).result = RecvRet.etimeout := by
  rcases arrivals with ⟨t, r, e⟩
  simp only [EventSet.rx_done] at hnorx
  subst hnorx
  cases engineOk <;> cases t <;> cases e <;>
    simp [isotp_rtt_send, isotp_rtt_receive, preClearEvents_eq_empty,
      EventSet.union, EventSet.empty]

/-- Witness for C10: a link whose event set holds a receive-done bit from
a completed earlier delivery performs a successful send with no signals
arriving during the wait apart from transmit-done: afterwards the
receive-done bit is gone and a receive call times out. -/
theorem send_discards_pending_rx_witness :
    (isotp_rtt_send ⟨4, [1, 2], 2, false, ⟨false, true, false⟩⟩ true
        ⟨true, false, false⟩).state.events.rx_done = false
      ∧ (isotp_rtt_receive
          (isotp_rtt_send ⟨4, [1, 2], 2, false, ⟨false, true, false⟩⟩ true
            ⟨true, false, false⟩).state 8).result = RecvRet.etimeout :=
  send_discards_pending_rx ⟨4, [1, 2], 2, false, ⟨false, true, false⟩⟩ true
    ⟨true, false, false⟩ 8 rfl
